import Mathlib

/-!
Verification of the VSC-NeuroPilot actions repository
(send-test-repo-action/src/index.ts and its richer compiled variant
src/unnamed/part_000).

The program is one linear pipeline (the async function run) that reads
action inputs, globs a directory, writes a marker file, uploads the files
as an artifact and dispatches a downstream workflow, all inside a single
try/catch.  We embed it as a pure function from an environment (the action
inputs plus an oracle giving the outcome of each effectful SDK call) to an
ordered trace of effect events together with an optional uncaught error.
-/

/-- A JavaScript string-or-undefined value.  The @actions/core function
getInput always returns a string (empty when the input is absent), while
process.env lookups and optional-chained manifest fields can be undefined. -/
inductive JsStr where
  | str : String → JsStr
  | undef : JsStr
deriving Repr, DecidableEq

/-- JavaScript nullish coalescing a ?? b on string-or-undefined values. -/
def JsStr.coalesce : JsStr → JsStr → JsStr
  | .str s, _ => .str s
  | .undef, b => b

/-- JavaScript truthiness of a string-or-undefined value: undefined and the
empty string are falsy. -/
def JsStr.truthy : JsStr → Bool
  | .str s => s != ""
  | .undef => false

/-- Template-literal interpolation: undefined prints as "undefined". -/
def JsStr.interp : JsStr → String
  | .str s => s
  | .undef => "undefined"

/-- The fields of package.json the program reads.  Fields are modelled as
string-or-undefined (a missing key reads as undefined). -/
structure Manifest where
  displayName : JsStr
  name : JsStr
deriving Repr, DecidableEq

/-- Optional chaining getPackageJson()?.f : getPackageJson() returns null
when the file is missing or malformed, making the whole chain undefined. -/
def pkgField (pj : Option Manifest) (f : Manifest → JsStr) : JsStr :=
  match pj with
  | none => .undef
  | some m => f m

/-- The shape of a caught JavaScript exception, as discriminated by the
top-level handler: a non-null object carrying a status field (it may or may
not also be an Error instance with a stack), an Error instance without a
status field, or anything else (reported via String(erm)). -/
inductive ErrVal where
  | withStatus (status : Nat) (message : JsStr) (isError : Bool) (stack : JsStr)
  | errorInstance (message : String) (stack : JsStr)
  | nonObject (stringForm : String)
deriving Repr, DecidableEq

/-- One observable effect of the run, in execution order.  log covers the
core.startGroup / endGroup / info / notice calls (pure diagnostics). -/
inductive Event where
  | log : String → Event
  | debug : String → Event
  | warning : String → Event
  | errorLog : String → Event
  | globSearch : String → Event
  | writeFile : String → String → Event
  | uploadArtifact : String → List String → String → Nat → Event
  | setFailed : String → Event
  | setOutput : String → String → Event
  | createClient : JsStr → Event
  | dispatch : String → String → Nat → String → List (String × String) → Event
deriving Repr, DecidableEq

def Event.isUpload : Event → Bool
  | .uploadArtifact .. => true
  | _ => false

def Event.isWrite : Event → Bool
  | .writeFile .. => true
  | _ => false

def Event.isDispatch : Event → Bool
  | .dispatch .. => true
  | _ => false

def Event.isNetwork (e : Event) : Bool := e.isUpload || e.isDispatch

def Event.isSetFailed : Event → Bool
  | .setFailed _ => true
  | _ => false

def Event.isSetOutput : Event → Bool
  | .setOutput .. => true
  | _ => false

/-- The environment of one invocation: the action inputs (as getInput
returns them, an absent input being the empty string; values are modelled
already trimmed), the ambient GITHUB_TOKEN variable, the parsed
package.json (none when missing or malformed), the repository context, and
the oracle outcomes of the four fallible SDK calls.  rich selects the
variant: false is send-test-repo-action/src/index.ts, true is the richer
src/unnamed/part_000, which additionally sets a repository output. -/
structure Env where
  inputGithubToken : String
  inputDir : String
  inputArtifactName : String
  inputPageName : String
  envGithubToken : JsStr
  packageJson : Option Manifest
  ctxOwner : String
  ctxRepo : String
  globResult : Except ErrVal (List String)
  writeResult : Except ErrVal Unit
  uploadResult : Except ErrVal (Option Nat)
  dispatchResult : Except ErrVal Nat
  rich : Bool

/-- Hardcoded dispatch target (index.ts line 25). -/
def targetWorkflow : Nat := 175007698

/-- Hardcoded dispatch target (index.ts line 26). -/
def targetRepo : String := "unit-tests"

/-- Hardcoded dispatch target (index.ts line 27). -/
def targetOwner : String := "VSC-NeuroPilot"

/-- Line 23: const token = core.getInput(github-token) ?? process.env.GITHUB_TOKEN.
getInput returns a string, never undefined, so the left operand of ?? is
always taken. -/
def resolvedToken (env : Env) : JsStr :=
  (JsStr.str env.inputGithubToken).coalesce env.envGithubToken

/-- Line 30: const artifactName = core.getInput(artifact-name) ?? github.context.repo.repo. -/
def resolvedArtifactName (env : Env) : String :=
  ((JsStr.str env.inputArtifactName).coalesce (JsStr.str env.ctxRepo)).interp

/-- Line 31: the value of core.getInput(page-name) ??
getPackageJson()?.displayName ?? getPackageJson()?.name (?? is
left-associative; getInput never returns undefined). -/
def pageName0 (inputPageName : String) (packageJson : Option Manifest) : JsStr :=
  ((JsStr.str inputPageName).coalesce
      (pkgField packageJson Manifest.displayName)).coalesce
      (pkgField packageJson Manifest.name)

/-- Lines 31 to 35: the line above followed by
if (!pageName) pageName = artifactName.  Returns the final page name. -/
def resolvePageName (inputPageName : String) (packageJson : Option Manifest)
    (artifactName : String) : String :=
  if (pageName0 inputPageName packageJson).truthy then
    (pageName0 inputPageName packageJson).interp
  else artifactName

/-- JavaScript falsiness of uploadResponse.id (number-or-undefined):
undefined and 0 are falsy. -/
def idTruthy : Option Nat → Bool
  | none => false
  | some n => n != 0

/-- Template interpolation of uploadResponse.id. -/
def idInterp : Option Nat → String
  | none => "undefined"
  | some n => toString n

/-- Node path.dirname (posix), following the algorithm of the Node source:
strip trailing slashes, strip the basename, and return what precedes the
separating slash, with the root and dot special cases. -/
def dirname (p : String) : String :=
  let cs := p.toList
  if cs.isEmpty then "." else
  let hasRoot := cs.head? = some '/'
  let r1 := cs.reverse.dropWhile (fun c => c = '/')
  let r2 := r1.dropWhile (fun c => c != '/')
  if r2.length ≤ 1 then (if hasRoot then "/" else ".")
  else if hasRoot && r2.length - 1 = 1 then "//"
  else String.mk (cs.take (r2.length - 1))

/-- Node path.join of a directory and a plain file name, modelled without
slash collapsing or dot-segment normalization (the second argument here is
always the literal info.json, so none applies). -/
def pathJoin (a b : String) : String :=
  if a = "" then b
  else if a.endsWith "/" then a ++ b
  else a ++ "/" ++ b

/-- The body of the try block of run (index.ts lines 19 to 136, part_000
lines 20 to 109).  Returns the ordered trace of effects performed and,
when a step throws, the thrown value (none when the body completes).
Each fallible SDK call is recorded as an event at the point of the call
and its outcome is read from the environment oracle. -/
def runBody (env : Env) : List Event × Option ErrVal :=
  let token := resolvedToken env
  let ev0 : List Event := [.log "🔧 Getting inputs and configuration"]
  if env.inputDir = "" then
    (ev0, some (.errorInstance "Input required and not supplied: dir" .undef))
  else
    let folderPath := env.inputDir
    let artifactName := resolvedArtifactName env
    let pageName := resolvePageName env.inputPageName env.packageJson artifactName
    let warnEvs : List Event :=
      if (pageName0 env.inputPageName env.packageJson).truthy then []
      else [.warning "No name provided! Falling back to artifact name!"]
    let ev1 := ev0 ++ warnEvs ++
      [.log ("📁 Folder path: " ++ folderPath),
       .log ("🏷️  Artifact name: " ++ artifactName),
       .debug ("🎯 Target workflow: " ++ toString targetWorkflow),
       .debug ("📦 Target repository: " ++ targetOwner ++ "/" ++ targetRepo),
       .debug ("🔑 Token provided: " ++ (if token.truthy then "Yes" else "No")),
       .log "endGroup",
       .log "📤 Uploading artifact",
       .debug ("Uploading folder " ++ folderPath ++ " as artifact " ++ artifactName),
       .debug "Artifact client created successfully",
       .log "🔍 Scanning for files to upload...",
       .globSearch (folderPath ++ "/**/*")]
    match env.globResult with
    | .error e => (ev1, some e)
    | .ok files =>
      let ev2 := ev1 ++
        [.log ("📋 Found " ++ toString files.length ++ " files to upload"),
         .debug ("Files: " ++ String.intercalate ", " files)]
      if files.length = 0 then
        (ev2, some (.errorInstance ("No files found in " ++ folderPath) .undef))
      else
        let ev3 := ev2 ++ [.writeFile (pathJoin folderPath "info.json")
          ("\x7bname:" ++ pageName ++ "\x7d")]
        match env.writeResult with
        | .error e => (ev3, some e)
        | .ok _ =>
          let ev4 := ev3 ++
            [.log "⬆️  Starting artifact upload...",
             .uploadArtifact artifactName files (dirname folderPath) 30]
          match env.uploadResult with
          | .error e => (ev4, some e)
          | .ok uid =>
            let failEvs : List Event :=
              if idTruthy uid then [] else [.setFailed "No artifact uploaded!"]
            let ev5 := ev4 ++ failEvs ++
              [.log ("✅ Artifact uploaded successfully. ID: " ++ idInterp uid),
               .log ("Artifact \"" ++ artifactName ++ "\" uploaded with ID: " ++ idInterp uid),
               .log "endGroup",
               .log "📊 Setting outputs"]
            match uid with
            | none =>
              (ev5, some (.errorInstance
                "Cannot read properties of undefined (reading \x27toString\x27)" .undef))
            | some n =>
              let idStr := toString n
              let repoFull := env.ctxOwner ++ "/" ++ env.ctxRepo
              let ev6 := ev5 ++
                [.setOutput "artifact-id" idStr,
                 .setOutput "artifact-name" artifactName] ++
                (if env.rich then [.setOutput "repository" repoFull] else []) ++
                [.debug ("🔗 Artifact ID: " ++ idStr),
                 .debug ("🏷️  Artifact name: " ++ artifactName),
                 .debug ("📂 Source repository: " ++ repoFull),
                 .log "endGroup",
                 .log "🚀 Triggering target workflow",
                 .debug "Creating GitHub API client...",
                 .createClient token]
              -- github.getOctokit routes through getAuthString, which throws
              -- when the token is falsy (the absent-input default is the empty
              -- string), so client creation fails before any dispatch request
              if token.truthy then
                let ev7 := ev6 ++
                  [.log ("🎯 Triggering workflow " ++ toString targetWorkflow ++
                    " in " ++ targetOwner ++ "/" ++ targetRepo),
                   .debug ("Workflow inputs: \x7b\n  \"artifact-id\": \"" ++ idStr ++
                     "\",\n  \"repo\": \"" ++ repoFull ++ "\",\n  \"folder-name\": \"" ++
                     artifactName ++ "\"\n\x7d"),
                   .log "📡 Sending workflow dispatch request...",
                   .dispatch targetOwner targetRepo targetWorkflow "main"
                     [("artifact-id", idStr), ("repo", repoFull),
                      ("folder-name", artifactName)]]
                match env.dispatchResult with
                | .error e => (ev7, some e)
                | .ok status =>
                  let ev8 := ev7 ++
                    [.debug ("API response status: " ++ toString status)] ++
                    (if status = 204 then
                      [.log "✅ Workflow dispatch successful.",
                       .log ("Successfully triggered workflow " ++ toString targetWorkflow ++
                         " in " ++ targetOwner ++ "/" ++ targetRepo)]
                     else
                      [.warning ("⚠️  Unexpected response status: " ++ toString status),
                       .setFailed ("Something went wrong while dispatching the workflow! " ++
                         toString status)]) ++
                    [.log "endGroup"]
                  (ev8, none)
              else
                (ev6, some (.errorInstance "Parameter token or opts.auth is required" .undef))

/-- The failure message chosen by the catch block (index.ts lines 144 to
152): errors carrying a status field are reported as HTTP errors (an
undefined message interpolates as the text undefined), Error instances by
their message, and anything else via String(erm). -/
def failureMessage : ErrVal → String
  | .withStatus st msg _ _ => "HTTP Error " ++ toString st ++ ": " ++ msg.interp
  | .errorInstance m _ => m
  | .nonObject s => s

/-- The catch block of run (index.ts lines 138 to 160): close any open
group, log and report the classified failure, and debug the stack trace
when the error is an Error instance with a truthy stack. -/
def handleError (e : ErrVal) : List Event :=
  [.log "endGroup", .log "❌ Error handling"] ++
  (match e with
   | .withStatus st msg _ _ =>
     [.errorLog ("HTTP Error " ++ toString st ++ ": " ++ msg.interp),
      .setFailed ("HTTP Error " ++ toString st ++ ": " ++ msg.interp)]
   | .errorInstance m _ =>
     [.errorLog ("Unexpected error: " ++ m), .setFailed m]
   | .nonObject s =>
     [.errorLog ("Unexpected error: " ++ s), .setFailed s]) ++
  (match e with
   | .withStatus _ _ isErr st =>
     if isErr && st.truthy then [.debug ("Stack trace: " ++ st.interp)] else []
   | .errorInstance _ st =>
     if st.truthy then [.debug ("Stack trace: " ++ st.interp)] else []
   | .nonObject _ => []) ++
  [.log "endGroup"]

/-- The whole async function run: the try block, with every thrown value
routed through the catch block.  The second component is an exception
propagating out of run; it is always none. -/
def run (env : Env) : List Event × Option ErrVal :=
  match runBody env with
  | (evs, none) => (evs, none)
  | (evs, some e) => (evs ++ handleError e, none)

theorem run_trace (env : Env) :
    (run env).1 = (runBody env).1 ++
      (match (runBody env).2 with
       | none => []
       | some e => handleError e) := by
  rcases h : runBody env with ⟨evs, o⟩
  cases o <;> simp [run, h]

theorem handleError_countP (e : ErrVal) :
    (handleError e).countP Event.isUpload = 0 ∧
    (handleError e).countP Event.isWrite = 0 ∧
    (handleError e).countP Event.isDispatch = 0 ∧
    (handleError e).countP Event.isSetOutput = 0 ∧
    (handleError e).countP Event.isSetFailed = 1 := by
  cases e <;>
    simp [handleError, Event.isUpload, Event.isWrite, Event.isDispatch,
      Event.isSetOutput, Event.isSetFailed, List.countP_append, List.countP_cons,
      apply_ite (List.countP Event.isUpload), apply_ite (List.countP Event.isWrite),
      apply_ite (List.countP Event.isDispatch), apply_ite (List.countP Event.isSetOutput),
      apply_ite (List.countP Event.isSetFailed), ite_self]

theorem handleError_no_upload (e : ErrVal) :
    (handleError e).countP Event.isUpload = 0 := (handleError_countP e).1

theorem handleError_no_write (e : ErrVal) :
    (handleError e).countP Event.isWrite = 0 := (handleError_countP e).2.1

theorem handleError_no_dispatch (e : ErrVal) :
    (handleError e).countP Event.isDispatch = 0 := (handleError_countP e).2.2.1

theorem handleError_no_output (e : ErrVal) :
    (handleError e).countP Event.isSetOutput = 0 := (handleError_countP e).2.2.2.1

theorem handleError_one_setFailed (e : ErrVal) :
    (handleError e).countP Event.isSetFailed = 1 := (handleError_countP e).2.2.2.2

/-- Claim C10: run is total with respect to errors.  Every error the body
can throw (modelled by the second component of runBody, covering input
resolution, globbing, the marker write, the upload, the id projection and
the dispatch) is routed through the single catch block, and run never
propagates an exception to its caller. -/
theorem C10_run_never_throws (env : Env) : (run env).2 = none := by
  rcases h : runBody env with ⟨evs, o⟩
  cases o <;> simp [run, h]

/-- Claim C2: the top-level handler reports an error carrying a status
field as exactly "HTTP Error <status>: <message>", an Error instance
without a status field by its message text, and a non-Error value by its
string form; in each case that failure message is passed to setFailed. -/
theorem C2_failure_message (e : ErrVal) :
    Event.setFailed (failureMessage e) ∈ handleError e ∧
    (∀ st m iE sk, failureMessage (ErrVal.withStatus st m iE sk) =
      "HTTP Error " ++ toString st ++ ": " ++ m.interp) ∧
    (∀ m sk, failureMessage (ErrVal.errorInstance m sk) = m) ∧
    (∀ s, failureMessage (ErrVal.nonObject s) = s) := by
  refine ⟨?_, fun st m iE sk => rfl, fun m sk => rfl, fun s => rfl⟩
  cases e <;> simp [handleError, failureMessage]

/-- Claim C1 (code bug): the four-level display-name precedence does not
hold in the code.  core.getInput returns a string (empty when the input is
absent), never a nullish value, so both ?? fallbacks to the manifest are
dead: the resolved page name is the explicit input when it is non-empty
and otherwise the artifact name, skipping the manifest display and name
fields.  Concretely, with no explicit input and a manifest display field
"Fancy Name", the code resolves "repo" (the artifact name), not
"Fancy Name". -/
theorem C1_manifest_fallback_dead :
    (∀ i pj a, resolvePageName i pj a = if i = "" then a else i) ∧
    resolvePageName ""
      (some { displayName := JsStr.str "Fancy Name", name := JsStr.str "pkg-name" })
      "repo" = "repo" ∧
    "repo" ≠ "Fancy Name" := by
  refine ⟨?_, rfl, by decide⟩
  intro i pj a
  by_cases hi : i = "" <;>
    simp [resolvePageName, pageName0, JsStr.coalesce, JsStr.truthy, JsStr.interp, hi]

/-- A concrete happy-path environment except that the explicit
github-token input is absent (empty) while the ambient GITHUB_TOKEN
environment variable is set. -/
def envC8 : Env :=
  { inputGithubToken := ""
    inputDir := "reports"
    inputArtifactName := "my-artifact"
    inputPageName := "My Page"
    envGithubToken := JsStr.str "ambient-secret"
    packageJson := none
    ctxOwner := "octo"
    ctxRepo := "demo"
    globResult := Except.ok ["reports/a.txt"]
    writeResult := Except.ok ()
    uploadResult := Except.ok (some 7)
    dispatchResult := Except.ok 204
    rich := false }

/-- Claim C8 (code bug): the credential does not fall back to the ambient
GITHUB_TOKEN.  core.getInput(github-token) returns a string (empty when
the input is absent), never undefined, so ?? always keeps the getInput
value: with an absent input and GITHUB_TOKEN set to ambient-secret, the
dispatch client is created with the empty string, not the ambient
credential. -/
theorem C8_token_fallback_dead :
    (∀ env : Env, resolvedToken env = JsStr.str env.inputGithubToken) ∧
    envC8.inputGithubToken = "" ∧
    envC8.envGithubToken = JsStr.str "ambient-secret" ∧
    resolvedToken envC8 = JsStr.str "" ∧
    Event.createClient (JsStr.str "") ∈ (run envC8).1 := by
  refine ⟨fun env => rfl, rfl, rfl, rfl, ?_⟩
  decide

/-- A concrete environment whose upload call succeeds but returns a
response without an id field, and whose directory contains one file. -/
def envC7 : Env :=
  { inputGithubToken := "tok"
    inputDir := "reports"
    inputArtifactName := "my-artifact"
    inputPageName := "My Page"
    envGithubToken := JsStr.undef
    packageJson := none
    ctxOwner := "octo"
    ctxRepo := "demo"
    globResult := Except.ok ["reports/a.txt"]
    writeResult := Except.ok ()
    uploadResult := Except.ok none
    dispatchResult := Except.ok 204
    rich := false }

/-- Claim C7 (code bug): a run is not limited to one terminal failure
report.  When the upload response has no id, the code calls
setFailed("No artifact uploaded!") and keeps executing; the subsequent
uploadResponse.id.toString() then throws, and the catch block calls
setFailed a second time, so this failing run produces two failure
reports. -/
theorem C7_double_failure_report :
    (run envC7).1.countP Event.isSetFailed = 2 ∧
    Event.setFailed "No artifact uploaded!" ∈ (run envC7).1 ∧
    Event.setFailed "Cannot read properties of undefined (reading \x27toString\x27)" ∈
      (run envC7).1 := by
  exact ⟨by decide, by decide, by decide⟩

/-- Claim C3: when the glob yields zero files, the run fails with the
"No files found in <dir>" message and neither the marker-file write nor
the artifact upload is attempted. -/
theorem C3_no_files (env : Env) (h1 : env.inputDir ≠ "")
    (h2 : env.globResult = Except.ok []) :
    Event.setFailed ("No files found in " ++ env.inputDir) ∈ (run env).1 ∧
    (run env).1.countP Event.isWrite = 0 ∧
    (run env).1.countP Event.isUpload = 0 := by
  simp [run, runBody, handleError, h1, h2, Event.isWrite, Event.isUpload,
    List.countP_append, List.countP_cons,
    apply_ite (List.countP Event.isWrite), apply_ite (List.countP Event.isUpload),
    ite_self]

/-- Environment whose directory input is present but matches no files. -/
def envW3 : Env :=
  { inputGithubToken := "tok"
    inputDir := "reports"
    inputArtifactName := "my-artifact"
    inputPageName := "My Page"
    envGithubToken := JsStr.undef
    packageJson := none
    ctxOwner := "octo"
    ctxRepo := "demo"
    globResult := Except.ok []
    writeResult := Except.ok ()
    uploadResult := Except.ok (some 7)
    dispatchResult := Except.ok 204
    rich := false }

theorem C3_no_files_witness :
    Event.setFailed ("No files found in " ++ envW3.inputDir) ∈ (run envW3).1 ∧
    (run envW3).1.countP Event.isWrite = 0 ∧
    (run envW3).1.countP Event.isUpload = 0 :=
  C3_no_files envW3 (by decide) rfl

/-- Claim C5: when the mandatory dir input is missing, getInput with
required set throws at once, so the run fails before any network call
(upload or dispatch), any file write and any output assignment. -/
theorem C5_missing_dir (env : Env) (h : env.inputDir = "") :
    (run env).1.countP Event.isNetwork = 0 ∧
    (run env).1.countP Event.isWrite = 0 ∧
    (run env).1.countP Event.isSetOutput = 0 ∧
    Event.setFailed "Input required and not supplied: dir" ∈ (run env).1 := by
  simp [run, runBody, handleError, h, Event.isNetwork, Event.isUpload, Event.isWrite,
    Event.isDispatch, Event.isSetOutput, List.countP_append, List.countP_cons]

/-- Environment with the mandatory dir input absent. -/
def envW5 : Env :=
  { inputGithubToken := "tok"
    inputDir := ""
    inputArtifactName := "my-artifact"
    inputPageName := "My Page"
    envGithubToken := JsStr.undef
    packageJson := none
    ctxOwner := "octo"
    ctxRepo := "demo"
    globResult := Except.ok ["reports/a.txt"]
    writeResult := Except.ok ()
    uploadResult := Except.ok (some 7)
    dispatchResult := Except.ok 204
    rich := false }

theorem C5_missing_dir_witness :
    (run envW5).1.countP Event.isNetwork = 0 ∧
    (run envW5).1.countP Event.isWrite = 0 ∧
    (run envW5).1.countP Event.isSetOutput = 0 ∧
    Event.setFailed "Input required and not supplied: dir" ∈ (run envW5).1 :=
  C5_missing_dir envW5 rfl

/-- Claim C4: with N >= 1 globbed files and the marker write succeeding,
exactly one artifact-upload call is made, and it receives the resolved
artifact name, exactly the globbed files, the parent directory of the
input folder, and a 30-day retention value, whatever the upload and
dispatch outcomes are. -/
theorem C4_single_upload (env : Env) (files : List String)
    (h1 : env.inputDir ≠ "") (h2 : env.globResult = Except.ok files)
    (h3 : files ≠ []) (h4 : env.writeResult = Except.ok ()) :
    (run env).1.countP Event.isUpload = 1 ∧
    Event.uploadArtifact (resolvedArtifactName env) files (dirname env.inputDir) 30 ∈
      (run env).1 := by
  have hlen : ¬ files.length = 0 := by simpa using h3
  rcases h5 : env.uploadResult with e5 | (_ | n)
  · simp [run, runBody, handleError_no_upload, h1, h2, hlen, h4, h5, Event.isUpload,
      List.countP_append, List.countP_cons,
      apply_ite (List.countP Event.isUpload), ite_self]
  · simp [run, runBody, handleError_no_upload, h1, h2, hlen, h4, h5, Event.isUpload,
      idTruthy, List.countP_append, List.countP_cons,
      apply_ite (List.countP Event.isUpload), ite_self]
  · cases htok : (resolvedToken env).truthy
    · simp [run, runBody, handleError_no_upload, h1, h2, hlen, h4, h5, htok,
        Event.isUpload, List.countP_append, List.countP_cons,
        apply_ite (List.countP Event.isUpload), ite_self]
    · rcases h6 : env.dispatchResult with e6 | status <;>
        simp [run, runBody, handleError_no_upload, h1, h2, hlen, h4, h5, h6, htok,
          Event.isUpload, List.countP_append, List.countP_cons,
          apply_ite (List.countP Event.isUpload), ite_self]

/-- Environment on the happy path with one file. -/
def envW4 : Env :=
  { inputGithubToken := "tok"
    inputDir := "reports"
    inputArtifactName := "my-artifact"
    inputPageName := "My Page"
    envGithubToken := JsStr.undef
    packageJson := none
    ctxOwner := "octo"
    ctxRepo := "demo"
    globResult := Except.ok ["reports/a.txt"]
    writeResult := Except.ok ()
    uploadResult := Except.ok (some 7)
    dispatchResult := Except.ok 204
    rich := false }

theorem C4_single_upload_witness :
    (run envW4).1.countP Event.isUpload = 1 ∧
    Event.uploadArtifact (resolvedArtifactName envW4) ["reports/a.txt"]
      (dirname envW4.inputDir) 30 ∈ (run envW4).1 :=
  C4_single_upload envW4 ["reports/a.txt"] (by decide) rfl (by decide) rfl

/-- Claim C6: for a run reaching the dispatch call with a usable artifact
id and a non-empty token (an empty token makes client creation throw
before the request is sent), a response status other than 204 marks the
run failed with a message carrying that status, while a 204 response
leaves the run without any failure report. -/
theorem C6_dispatch_status (env : Env) (files : List String) (n s : Nat)
    (h1 : env.inputDir ≠ "") (h2 : env.globResult = Except.ok files)
    (h3 : files ≠ []) (h4 : env.writeResult = Except.ok ())
    (h5 : env.uploadResult = Except.ok (some n)) (h6 : n ≠ 0)
    (h7 : env.dispatchResult = Except.ok s) (h8 : env.inputGithubToken ≠ "") :
    (s ≠ 204 → Event.setFailed
      ("Something went wrong while dispatching the workflow! " ++ toString s) ∈
        (run env).1) ∧
    (s = 204 → (run env).1.countP Event.isSetFailed = 0) := by
  have hlen : ¬ files.length = 0 := by simpa using h3
  have hid : idTruthy (some n) = true := by simp [idTruthy, h6]
  have htok : (resolvedToken env).truthy = true := by
    simp [resolvedToken, JsStr.coalesce, JsStr.truthy, h8]
  constructor
  · intro hs
    simp [run, runBody, h1, h2, hlen, h4, h5, h7, hs, hid, htok]
  · intro hs
    subst hs
    simp [run, runBody, h1, h2, hlen, h4, h5, h7, hid, htok, Event.isSetFailed,
      List.countP_append, List.countP_cons,
      apply_ite (List.countP Event.isSetFailed), ite_self]

/-- Environment reaching dispatch, which answers with status 500. -/
def envW6 : Env :=
  { inputGithubToken := "tok"
    inputDir := "reports"
    inputArtifactName := "my-artifact"
    inputPageName := "My Page"
    envGithubToken := JsStr.undef
    packageJson := none
    ctxOwner := "octo"
    ctxRepo := "demo"
    globResult := Except.ok ["reports/a.txt"]
    writeResult := Except.ok ()
    uploadResult := Except.ok (some 7)
    dispatchResult := Except.ok 500
    rich := false }

theorem C6_dispatch_status_witness :
    ((500 : Nat) ≠ 204 → Event.setFailed
      ("Something went wrong while dispatching the workflow! " ++ toString (500 : Nat)) ∈
        (run envW6).1) ∧
    ((500 : Nat) = 204 → (run envW6).1.countP Event.isSetFailed = 0) :=
  C6_dispatch_status envW6 ["reports/a.txt"] 7 500 (by decide) rfl (by decide) rfl rfl
    (by decide) rfl (by decide)

/-- The trace restricted to output assignments and dispatch calls. -/
def outOrDispatch (ev : Event) : Bool := ev.isSetOutput || ev.isDispatch

@[simp] theorem outOrDispatch_log (s : String) :
    outOrDispatch (Event.log s) = false := rfl

@[simp] theorem outOrDispatch_debug (s : String) :
    outOrDispatch (Event.debug s) = false := rfl

@[simp] theorem outOrDispatch_warning (s : String) :
    outOrDispatch (Event.warning s) = false := rfl

@[simp] theorem outOrDispatch_errorLog (s : String) :
    outOrDispatch (Event.errorLog s) = false := rfl

@[simp] theorem outOrDispatch_globSearch (s : String) :
    outOrDispatch (Event.globSearch s) = false := rfl

@[simp] theorem outOrDispatch_writeFile (a b : String) :
    outOrDispatch (Event.writeFile a b) = false := rfl

@[simp] theorem outOrDispatch_uploadArtifact (a : String) (fs : List String)
    (r : String) (d : Nat) :
    outOrDispatch (Event.uploadArtifact a fs r d) = false := rfl

@[simp] theorem outOrDispatch_setFailed (s : String) :
    outOrDispatch (Event.setFailed s) = false := rfl

@[simp] theorem outOrDispatch_setOutput (a b : String) :
    outOrDispatch (Event.setOutput a b) = true := rfl

@[simp] theorem outOrDispatch_createClient (t : JsStr) :
    outOrDispatch (Event.createClient t) = false := rfl

@[simp] theorem outOrDispatch_dispatch (o r : String) (w : Nat) (rf : String)
    (ins : List (String × String)) :
    outOrDispatch (Event.dispatch o r w rf ins) = true := rfl

theorem handleError_filter (e : ErrVal) :
    (handleError e).filter outOrDispatch = [] := by
  cases e <;>
    simp [handleError, List.filter_append, List.filter_cons,
      apply_ite (List.filter outOrDispatch), ite_self]

/-- Claim C9: in a run whose upload returns an id and whose token is
non-empty (so that client creation does not throw), the artifact-id and
artifact-name outputs (and, in the richer variant, the repository output)
are assigned before the dispatch call: restricted to output and dispatch
events, the trace is exactly the outputs followed by the single dispatch
event, for every dispatch outcome (thrown error or any status), so the
outputs remain set when the dispatch fails. -/
theorem C9_outputs_before_dispatch (env : Env) (files : List String) (n : Nat)
    (h1 : env.inputDir ≠ "") (h2 : env.globResult = Except.ok files)
    (h3 : files ≠ []) (h4 : env.writeResult = Except.ok ())
    (h5 : env.uploadResult = Except.ok (some n))
    (h6 : env.inputGithubToken ≠ "") :
    (run env).1.filter outOrDispatch =
      [Event.setOutput "artifact-id" (toString n),
       Event.setOutput "artifact-name" (resolvedArtifactName env)] ++
      (if env.rich then
        [Event.setOutput "repository" (env.ctxOwner ++ "/" ++ env.ctxRepo)]
       else []) ++
      [Event.dispatch targetOwner targetRepo targetWorkflow "main"
        [("artifact-id", toString n),
         ("repo", env.ctxOwner ++ "/" ++ env.ctxRepo),
         ("folder-name", resolvedArtifactName env)]] := by
  have hlen : ¬ files.length = 0 := by simpa using h3
  have htok : (resolvedToken env).truthy = true := by
    simp [resolvedToken, JsStr.coalesce, JsStr.truthy, h6]
  rcases h7 : env.dispatchResult with e7 | status <;>
    cases hr : env.rich <;>
      simp [run, runBody, handleError_filter, h1, h2, hlen, h4, h5, h7, hr, htok,
        List.filter_append, List.filter_cons,
        apply_ite (List.filter outOrDispatch), ite_self]

/-- Environment of the richer variant whose dispatch fails with 500. -/
def envW9 : Env :=
  { inputGithubToken := "tok"
    inputDir := "reports"
    inputArtifactName := "my-artifact"
    inputPageName := "My Page"
    envGithubToken := JsStr.undef
    packageJson := none
    ctxOwner := "octo"
    ctxRepo := "demo"
    globResult := Except.ok ["reports/a.txt"]
    writeResult := Except.ok ()
    uploadResult := Except.ok (some 7)
    dispatchResult := Except.ok 500
    rich := true }

theorem C9_outputs_before_dispatch_witness :
    (run envW9).1.filter outOrDispatch =
      [Event.setOutput "artifact-id" (toString (7 : Nat)),
       Event.setOutput "artifact-name" (resolvedArtifactName envW9)] ++
      (if envW9.rich then
        [Event.setOutput "repository" (envW9.ctxOwner ++ "/" ++ envW9.ctxRepo)]
       else []) ++
      [Event.dispatch targetOwner targetRepo targetWorkflow "main"
        [("artifact-id", toString (7 : Nat)),
         ("repo", envW9.ctxOwner ++ "/" ++ envW9.ctxRepo),
         ("folder-name", resolvedArtifactName envW9)]] :=
  C9_outputs_before_dispatch envW9 ["reports/a.txt"] 7 (by decide) rfl (by decide) rfl rfl
    (by decide)
